import Mathlib

/-
Verification of the ARC projectile-dueling arena core: a shallow embedding
of the gameplay modules (physics.js, strikeZone.js, config.js and the main
game module) with theorems about the reflection engine, throw logic,
scoring state machine, strike-zone cooldown, state mirroring, shield
energy, the return transition, physics sub-stepping and the bounce-event
queue.

Numeric convention: JavaScript numbers are modelled as exact reals where
the code computes norms and trigonometry, and as exact rationals where the
code only does arithmetic and comparisons (timestamps, energies, scores).
-/

/-! ## Vectors (THREE.Vector3 as used by the code) -/

structure Vec3 where
  x : ℝ
  y : ℝ
  z : ℝ

def Vec3.add (v w : Vec3) : Vec3 := ⟨v.x + w.x, v.y + w.y, v.z + w.z⟩

def Vec3.smul (c : ℝ) (v : Vec3) : Vec3 := ⟨c * v.x, c * v.y, c * v.z⟩

def Vec3.dot (v w : Vec3) : ℝ := v.x * w.x + v.y * w.y + v.z * w.z

/-- Squared euclidean length of a vector. -/
def Vec3.sqNorm (v : Vec3) : ℝ := v.x ^ 2 + v.y ^ 2 + v.z ^ 2

/-- THREE.Vector3.length(): the euclidean length. -/
noncomputable def norm3 (v : Vec3) : ℝ := Real.sqrt v.sqNorm

/-- THREE.Vector3.normalize(): divides by the length, or by 1 when the
length is zero (`divideScalar(this.length() || 1)`), so the zero vector is
left unchanged. -/
noncomputable def Vec3.normalize (v : Vec3) : Vec3 :=
  open Classical in
  if norm3 v = 0 then v else Vec3.smul (1 / norm3 v) v

lemma Vec3.sqNorm_nonneg (v : Vec3) : 0 ≤ v.sqNorm := by
  have hx := sq_nonneg v.x
  have hy := sq_nonneg v.y
  have hz := sq_nonneg v.z
  unfold Vec3.sqNorm
  linarith

lemma norm3_nonneg (v : Vec3) : 0 ≤ norm3 v := Real.sqrt_nonneg _

lemma norm3_sq (v : Vec3) : norm3 v ^ 2 = v.sqNorm := by
  unfold norm3
  exact Real.sq_sqrt v.sqNorm_nonneg

lemma norm3_eq_of_sqNorm_eq {v w : Vec3} (h : v.sqNorm = w.sqNorm) :
    norm3 v = norm3 w := by
  unfold norm3
  rw [h]

lemma Vec3.sqNorm_smul (c : ℝ) (v : Vec3) :
    (Vec3.smul c v).sqNorm = c ^ 2 * v.sqNorm := by
  simp only [Vec3.smul, Vec3.sqNorm]
  ring

lemma norm3_smul (c : ℝ) (v : Vec3) : norm3 (Vec3.smul c v) = |c| * norm3 v := by
  unfold norm3
  rw [Vec3.sqNorm_smul, Real.sqrt_mul (sq_nonneg c), Real.sqrt_sq_eq_abs]

lemma norm3_eq_zero_iff (v : Vec3) : norm3 v = 0 ↔ v.sqNorm = 0 := by
  unfold norm3
  exact Real.sqrt_eq_zero v.sqNorm_nonneg

lemma norm3_normalize {v : Vec3} (h : norm3 v ≠ 0) : norm3 v.normalize = 1 := by
  have hpos : 0 < norm3 v := lt_of_le_of_ne (norm3_nonneg v) (Ne.symm h)
  unfold Vec3.normalize
  rw [if_neg h, norm3_smul]
  rw [abs_of_pos (by positivity)]
  field_simp

/-- Norm of a vector along the z axis, used to evaluate the embedding at
concrete inputs. -/
lemma norm3_zaxis (c : ℝ) : norm3 ⟨0, 0, c⟩ = |c| := by
  unfold norm3 Vec3.sqNorm
  simp only
  rw [show (0:ℝ) ^ 2 + 0 ^ 2 + c ^ 2 = c ^ 2 by ring, Real.sqrt_sq_eq_abs]

/-! ## THREE.Euler rotation

Both `_tmpEuler` and `_shieldEuler` in the main module are constructed with
order YXZ and are only ever set with a zero roll: `euler.set(pitch, yaw, 0)`.
For that order the rotation matrix (THREE.Matrix4.makeRotationFromEuler,
case YXZ, with z = 0) is Ry(yaw)·Rx(pitch). -/

noncomputable def applyEulerYXZ (pitch yaw : ℝ) (v : Vec3) : Vec3 :=
  ⟨Real.cos yaw * v.x + Real.sin pitch * Real.sin yaw * v.y
      + Real.cos pitch * Real.sin yaw * v.z,
   Real.cos pitch * v.y - Real.sin pitch * v.z,
   -Real.sin yaw * v.x + Real.sin pitch * Real.cos yaw * v.y
      + Real.cos pitch * Real.cos yaw * v.z⟩

lemma sqNorm_applyEulerYXZ (pitch yaw : ℝ) (v : Vec3) :
    (applyEulerYXZ pitch yaw v).sqNorm = v.sqNorm := by
  have h1 : Real.sin pitch ^ 2 + Real.cos pitch ^ 2 = 1 :=
    Real.sin_sq_add_cos_sq pitch
  have h2 : Real.sin yaw ^ 2 + Real.cos yaw ^ 2 = 1 :=
    Real.sin_sq_add_cos_sq yaw
  simp only [applyEulerYXZ, Vec3.sqNorm]
  linear_combination (v.y ^ 2 + v.z ^ 2) * h1 +
    (v.x ^ 2 + Real.sin pitch ^ 2 * v.y ^ 2 + Real.cos pitch ^ 2 * v.z ^ 2 +
      2 * Real.cos pitch * Real.sin pitch * v.y * v.z) * h2

lemma norm3_applyEulerYXZ (pitch yaw : ℝ) (v : Vec3) :
    norm3 (applyEulerYXZ pitch yaw v) = norm3 v :=
  norm3_eq_of_sqNorm_eq (sqNorm_applyEulerYXZ pitch yaw v)

/-- Elastic mirror reflection keeps the squared norm when the mirror normal
is a unit vector. -/
lemma sqNorm_mirror (v n : Vec3) (h : n.sqNorm = 1) :
    (Vec3.add (Vec3.smul (-2 * Vec3.dot v n) n) v).sqNorm = v.sqNorm := by
  simp only [Vec3.add, Vec3.smul, Vec3.dot, Vec3.sqNorm] at h ⊢
  linear_combination (4 * (v.x * n.x + v.y * n.y + v.z * n.z) ^ 2) * h

/-! ## Gameplay constants (src/config.js) -/

namespace CONFIG

def ARENA_LENGTH : ℝ := 60
def ARENA_WIDTH : ℝ := 10
def ARENA_HEIGHT : ℝ := 5.5
def THROW_SPEED : ℝ := 45
def AIR_DRAG : ℝ := 0.9995
def REFLECT_SPEED_MULT : ℝ := 1.3
def PARRY_SPEED_MULT : ℝ := 1.6
def PARRY_WINDOW_MS : ℚ := 150
def SHIELD_ENERGY_MAX : ℚ := 1.0
def SHIELD_DRAIN_RATE : ℚ := 0.35
def SHIELD_RECHARGE_RATE : ℚ := 0.3
def SHIELD_MIN_ACTIVATE : ℚ := 0.15
def STRIKE_SPEED_SCALE : ℝ := 0.10
def STRIKE_MIN_ORB_SPEED : ℝ := 5.0
def FLICK_THRESHOLD_PX : ℝ := 150
def FLICK_CURVE_ACCEL : ℝ := 8.0
def FLICK_CURVE_DURATION_S : ℚ := 0.3
def POINTS_TO_WIN : ℕ := 7
def ROUNDS_TO_WIN : ℕ := 2
def RESET_DELAY_S : ℚ := 1.2
def RETURN_INITIAL_SPEED : ℝ := 22

end CONFIG

/-! ## Shield and reflection engine (createShield / processReflection) -/

/-- One entry of a shield's pending-reflection FIFO queue, pushed by the
collide listener in createShield: the contacting orb body (modelled by its
id) and the contact timestamp. -/
structure RefEvent where
  orbBodyId : ℕ
  timestamp : ℚ

structure ShieldState where
  active : Bool
  raiseTime : ℚ
  flashTimer : ℚ

/-- A shield as createShield builds it: its state, the reflection queue and
the mesh rotation (set as Euler (pitch, yaw, 0, YXZ) by updateShield). -/
structure Shield where
  state : ShieldState
  reflections : List RefEvent
  meshRotX : ℝ
  meshRotY : ℝ

/-- The value processReflection returns when it handles an event. -/
structure RefResult where
  isParry : Bool
  speed : ℝ

/-- Everything processReflection writes: the returned value (or none), the
remaining queue, the new orb velocity (written identically to the physics
body and the orb state) and the shield flash timer. -/
structure ReflectOut where
  result : Option RefResult
  reflections : List RefEvent
  orbVel : Vec3
  flashTimer : ℚ

/-- processReflection (main module): pops the FIFO head of the reflection
queue, drops it when its body is not the tracked orb body, otherwise
classifies Parry/Reflect by the parry window and redirects the orb either
toward the supplied aim direction or by elastic mirror reflection off the
shield normal, rescaled by the multiplier. -/
noncomputable def processReflection (shield : Shield) (orbVel : Vec3)
    (orbBodyId : ℕ) (aimDirection : Option Vec3) : ReflectOut :=
  match shield.reflections with
  | [] => ⟨none, [], orbVel, shield.state.flashTimer⟩
  | event :: rest =>
    if event.orbBodyId ≠ orbBodyId then
      ⟨none, rest, orbVel, shield.state.flashTimer⟩
    else
      let speed := norm3 orbVel
      let timeSinceRaise := event.timestamp - shield.state.raiseTime
      let isParry : Bool := decide (timeSinceRaise ≤ CONFIG.PARRY_WINDOW_MS)
      let mult : ℝ :=
        if isParry then CONFIG.PARRY_SPEED_MULT else CONFIG.REFLECT_SPEED_MULT
      let res : Vec3 :=
        match aimDirection with
        | some aim => Vec3.smul (speed * mult) aim.normalize
        | none =>
          let nrm := applyEulerYXZ shield.meshRotX shield.meshRotY ⟨0, 0, -1⟩
          let d := Vec3.dot orbVel nrm
          let refl := Vec3.add (Vec3.smul (-2 * d) nrm) orbVel
          Vec3.smul (speed * mult) refl.normalize
      ⟨some ⟨isParry, speed * mult⟩, rest,
       res, if isParry then 0.3 else shield.state.flashTimer⟩

/-- handleShieldReflections drains the queue by calling processReflection
while it is non-empty; each call pops exactly one event, so the loop is
modelled by recursion on a fuel initialised to the queue length (see
drainShieldReflections). The triple is (final shield, final orb velocity,
number of processReflection calls made). -/
noncomputable def handleShieldReflections :
    ℕ → Shield → Vec3 → ℕ → Option Vec3 → Shield × Vec3 × ℕ
  | 0, shield, v, _, _ => (shield, v, 0)
  | fuel + 1, shield, v, id, aim =>
    if shield.reflections.isEmpty then (shield, v, 0)
    else
      let out := processReflection shield v id aim
      let shield2 : Shield :=
        {shield with reflections := out.reflections,
                     state := {shield.state with flashTimer := out.flashTimer}}
      let r := handleShieldReflections fuel shield2 out.orbVel id aim
      (r.1, r.2.1, r.2.2 + 1)

noncomputable def drainShieldReflections (shield : Shield) (v : Vec3)
    (id : ℕ) (aim : Option Vec3) : Shield × Vec3 × ℕ :=
  handleShieldReflections shield.reflections.length shield v id aim

lemma sqNorm_negZ : (Vec3.sqNorm ⟨0, 0, -1⟩) = 1 := by
  unfold Vec3.sqNorm
  norm_num

/-- Norm of the redirected velocity: the code rescales a normalized
direction by (incoming speed × multiplier), so as long as the direction is
non-degenerate whenever the incoming speed is, the resulting speed is
exactly (incoming speed × multiplier). -/
lemma norm3_smul_normalize (v w : Vec3) (m : ℝ) (hm : 0 ≤ m)
    (hw : norm3 v ≠ 0 → norm3 w ≠ 0) :
    norm3 (Vec3.smul (norm3 v * m) w.normalize) = norm3 v * m := by
  by_cases hv : norm3 v = 0
  · rw [hv, zero_mul, norm3_smul, abs_zero, zero_mul]
  · have h1 : norm3 w.normalize = 1 := norm3_normalize (hw hv)
    rw [norm3_smul, h1, mul_one,
      abs_of_nonneg (mul_nonneg (norm3_nonneg v) hm)]

lemma processReflection_tail (shield : Shield) (v : Vec3) (id : ℕ)
    (aim : Option Vec3) (event : RefEvent) (rest : List RefEvent)
    (hq : shield.reflections = event :: rest) :
    (processReflection shield v id aim).reflections = rest := by
  obtain ⟨st, q, rx, ry⟩ := shield
  simp only at hq
  subst hq
  unfold processReflection
  by_cases hcond : event.orbBodyId ≠ id
  · simp [hcond]
  · simp [hcond]

/-- Claim C1: for every processed shield reflection event, the contact is
classified as a Parry if and only if the event timestamp minus the shield
raise timestamp is at most the 150 ms parry window (otherwise a Reflect),
and the resulting orb speed is the incoming speed times exactly one of the
two multipliers: 1.6 for a Parry, 1.3 for a Reflect. The aim direction,
when one is supplied, is the camera forward vector and hence non-zero. -/
theorem processReflection_parry_classification (shield : Shield)
    (orbVel : Vec3) (orbBodyId : ℕ) (aimDirection : Option Vec3)
    (event : RefEvent) (rest : List RefEvent)
    (hq : shield.reflections = event :: rest)
    (hid : event.orbBodyId = orbBodyId)
    (haim : ∀ a, aimDirection = some a → norm3 a ≠ 0) :
    ∃ r : RefResult,
      (processReflection shield orbVel orbBodyId aimDirection).result = some r ∧
      (r.isParry = true ↔
        event.timestamp - shield.state.raiseTime ≤ CONFIG.PARRY_WINDOW_MS) ∧
      r.speed = norm3 orbVel *
        (if r.isParry then CONFIG.PARRY_SPEED_MULT else CONFIG.REFLECT_SPEED_MULT) ∧
      norm3 (processReflection shield orbVel orbBodyId aimDirection).orbVel
        = norm3 orbVel *
          (if r.isParry then CONFIG.PARRY_SPEED_MULT else CONFIG.REFLECT_SPEED_MULT) ∧
      CONFIG.PARRY_SPEED_MULT = 1.6 ∧ CONFIG.REFLECT_SPEED_MULT = 1.3 ∧
      CONFIG.PARRY_SPEED_MULT ≠ CONFIG.REFLECT_SPEED_MULT := by
  obtain ⟨st, q, rx, ry⟩ := shield
  simp only at hq
  subst hq
  set isParry : Bool :=
    decide (event.timestamp - st.raiseTime ≤ CONFIG.PARRY_WINDOW_MS) with hP
  set mult : ℝ :=
    (if isParry then CONFIG.PARRY_SPEED_MULT else CONFIG.REFLECT_SPEED_MULT)
    with hM
  have hmpos : 0 < mult := by
    rw [hM]
    by_cases hb : isParry = true <;>
      simp [hb, CONFIG.PARRY_SPEED_MULT, CONFIG.REFLECT_SPEED_MULT] <;>
      norm_num
  refine ⟨⟨isParry, norm3 orbVel * mult⟩, ?_, ?_, ?_, ?_, ?_, ?_, ?_⟩
  · unfold processReflection
    simp [hid, hP, hM]
  · simp [hP]
  · by_cases hb : isParry = true
    · simp [hM, hb]
    · simp [hM, hb]
  · unfold processReflection
    simp only [hid, ne_eq, not_true_eq_false, if_false, ite_false]
    cases aimDirection with
    | none =>
      simp only [← hP, ← hM]
      have hn : (applyEulerYXZ rx ry ⟨0, 0, -1⟩).sqNorm = 1 := by
        rw [sqNorm_applyEulerYXZ, sqNorm_negZ]
      have hrefl : norm3 (Vec3.add
          (Vec3.smul (-2 * Vec3.dot orbVel (applyEulerYXZ rx ry ⟨0, 0, -1⟩))
            (applyEulerYXZ rx ry ⟨0, 0, -1⟩)) orbVel) = norm3 orbVel :=
        norm3_eq_of_sqNorm_eq (sqNorm_mirror orbVel _ hn)
      exact norm3_smul_normalize orbVel _ mult hmpos.le (fun h => hrefl ▸ h)
    | some a =>
      simp only [← hP, ← hM]
      exact norm3_smul_normalize orbVel a mult hmpos.le (fun _ => haim a rfl)
  · rfl
  · rfl
  · simp [CONFIG.PARRY_SPEED_MULT, CONFIG.REFLECT_SPEED_MULT]
    norm_num

/-- Witness for C1 at a concrete input: a queue with one matching event at
timestamp 100 against a shield raised at time 0 (inside the parry window),
incoming velocity (0,0,3), no aim direction, shield facing straight ahead. -/
theorem processReflection_parry_classification_witness :
    ∃ r : RefResult,
      (processReflection ⟨⟨true, 0, 0⟩, [⟨5, 100⟩], 0, 0⟩ ⟨0, 0, 3⟩ 5 none).result
        = some r ∧
      (r.isParry = true ↔ (100 : ℚ) - 0 ≤ CONFIG.PARRY_WINDOW_MS) ∧
      r.speed = norm3 ⟨0, 0, 3⟩ *
        (if r.isParry then CONFIG.PARRY_SPEED_MULT else CONFIG.REFLECT_SPEED_MULT) ∧
      norm3 (processReflection ⟨⟨true, 0, 0⟩, [⟨5, 100⟩], 0, 0⟩ ⟨0, 0, 3⟩ 5 none).orbVel
        = norm3 ⟨0, 0, 3⟩ *
          (if r.isParry then CONFIG.PARRY_SPEED_MULT else CONFIG.REFLECT_SPEED_MULT) ∧
      CONFIG.PARRY_SPEED_MULT = 1.6 ∧ CONFIG.REFLECT_SPEED_MULT = 1.3 ∧
      CONFIG.PARRY_SPEED_MULT ≠ CONFIG.REFLECT_SPEED_MULT :=
  processReflection_parry_classification ⟨⟨true, 0, 0⟩, [⟨5, 100⟩], 0, 0⟩
    ⟨0, 0, 3⟩ 5 none ⟨5, 100⟩ [] rfl rfl (fun a ha => by cases ha)

lemma processReflection_mismatch (shield : Shield) (v : Vec3) (id : ℕ)
    (aim : Option Vec3) (event : RefEvent) (rest : List RefEvent)
    (hq : shield.reflections = event :: rest) (hne : event.orbBodyId ≠ id) :
    (processReflection shield v id aim).result = none ∧
    (processReflection shield v id aim).orbVel = v := by
  obtain ⟨st, q, rx, ry⟩ := shield
  simp only at hq
  subst hq
  unfold processReflection
  simp [hne]

lemma handleShieldReflections_exact (q : List RefEvent) :
    ∀ (shield : Shield) (v : Vec3) (id : ℕ) (aim : Option Vec3),
      shield.reflections = q →
      (handleShieldReflections q.length shield v id aim).2.2 = q.length ∧
      (handleShieldReflections q.length shield v id aim).1.reflections = [] := by
  induction q with
  | nil =>
    intro shield v id aim hq
    simp [handleShieldReflections, hq]
  | cons event rest ih =>
    intro shield v id aim hq
    have hne : shield.reflections.isEmpty = false := by
      rw [hq]
      rfl
    have htail := processReflection_tail shield v id aim event rest hq
    simp only [List.length_cons, handleShieldReflections, hne,
      Bool.false_eq_true, if_false]
    have := ih
      {shield with reflections := (processReflection shield v id aim).reflections,
                   state := {shield.state with
                             flashTimer := (processReflection shield v id aim).flashTimer}}
      (processReflection shield v id aim).orbVel id aim htail
    exact ⟨by rw [this.1], this.2⟩

/-- Claim C10: every call to processReflection with a non-empty queue
removes exactly the FIFO head from the queue; when the head's body does not
match the tracked orb body the call returns null and leaves the orb
velocity unchanged; consequently the drain loop of handleShieldReflections
makes exactly queue-length calls and ends with an empty queue. -/
theorem processReflection_fifo_drain :
    (∀ (shield : Shield) (v : Vec3) (id : ℕ) (aim : Option Vec3)
        (event : RefEvent) (rest : List RefEvent),
      shield.reflections = event :: rest →
        (processReflection shield v id aim).reflections = rest ∧
        (event.orbBodyId ≠ id →
          (processReflection shield v id aim).result = none ∧
          (processReflection shield v id aim).orbVel = v)) ∧
    (∀ (shield : Shield) (v : Vec3) (id : ℕ) (aim : Option Vec3),
      (drainShieldReflections shield v id aim).2.2 = shield.reflections.length ∧
      (drainShieldReflections shield v id aim).1.reflections = []) := by
  constructor
  · intro shield v id aim event rest hq
    exact ⟨processReflection_tail shield v id aim event rest hq,
      fun hne => processReflection_mismatch shield v id aim event rest hq hne⟩
  · intro shield v id aim
    exact handleShieldReflections_exact shield.reflections shield v id aim rfl

/-! ## Client network mirroring (createNetwork.mirrorState) -/

/-- The state-snapshot payload of a `state` message (the `data` schema). -/
structure MirrorData where
  px : ℝ
  py : ℝ
  pz : ℝ
  yaw : ℝ
  pitch : ℝ
  blocking : Bool
  crouching : Bool
  dashActive : Bool
  armed : Bool
  orbHeld : Bool
  orbX : ℝ
  orbY : ℝ
  orbZ : ℝ
  orbVx : ℝ
  orbVy : ℝ
  orbVz : ℝ
  orbReturning : Bool
  orbStrikeStacks : ℕ

/-- mirrorState: maps a remote snapshot from the sender's +Z perspective to
the local -Z perspective: the depth axis (pz, orbZ, orbVz) is negated and
the yaw is rotated by 180 degrees; every other field is copied. -/
noncomputable def mirrorState (data : MirrorData) : MirrorData :=
  { px := data.px
    py := data.py
    pz := -data.pz
    yaw := data.yaw + Real.pi
    pitch := data.pitch
    blocking := data.blocking
    crouching := data.crouching
    dashActive := data.dashActive
    armed := data.armed
    orbHeld := data.orbHeld
    orbX := data.orbX
    orbY := data.orbY
    orbZ := -data.orbZ
    orbVx := data.orbVx
    orbVy := data.orbVy
    orbVz := -data.orbVz
    orbReturning := data.orbReturning
    orbStrikeStacks := data.orbStrikeStacks }

/-- Claim C5: applying the coordinate mirroring transform twice yields the
original snapshot: every field returns to its original value, except that
the yaw comes back shifted by a full turn, so it is equal modulo 2 pi (the
shift is exactly one integer multiple of 2 pi). -/
theorem mirrorState_involution (data : MirrorData) :
    mirrorState (mirrorState data)
      = {data with yaw := data.yaw + 2 * Real.pi} ∧
    ∃ k : ℤ, (mirrorState (mirrorState data)).yaw
      = data.yaw + k * (2 * Real.pi) := by
  constructor
  · obtain ⟨px, py, pz, yaw, pitch, b, c, d, a, oh, ox, oy, oz, ovx, ovy,
      ovz, orr, oss⟩ := data
    simp only [mirrorState, neg_neg, MirrorData.mk.injEq, and_true, true_and]
    ring
  · exact ⟨1, by simp only [mirrorState]; push_cast; ring⟩

/-! ## Physics sub-stepping (src/physics.js stepPhysics) -/

/-- The per-logical-step sub-step count chosen by stepPhysics from the
fastest active orb speed. -/
noncomputable def subStepsFor (maxSpeed : ℝ) : ℕ :=
  open Classical in
  if 30 < maxSpeed then 3 else if 15 < maxSpeed then 2 else 1

/-- stepPhysics: steps the world subSteps times by dt / subSteps; the model
records the sequence of world.step increments of one call. -/
noncomputable def stepPhysics (maxSpeed dt : ℝ) : List ℝ :=
  List.replicate (subStepsFor maxSpeed) (dt / (subStepsFor maxSpeed : ℝ))

/-- Claim C8: a logical physics step takes exactly 3 sub-steps when the
fastest active orb speed exceeds 30, exactly 2 when it exceeds 15 but not
30, and exactly 1 otherwise; each sub-step advances the world by the
logical timestep divided by the sub-step count. -/
theorem stepPhysics_substeps (maxSpeed dt : ℝ) :
    ((30 < maxSpeed → (stepPhysics maxSpeed dt).length = 3) ∧
     (15 < maxSpeed ∧ maxSpeed ≤ 30 → (stepPhysics maxSpeed dt).length = 2) ∧
     (maxSpeed ≤ 15 → (stepPhysics maxSpeed dt).length = 1)) ∧
    ∀ d ∈ stepPhysics maxSpeed dt,
      d = dt / ((stepPhysics maxSpeed dt).length : ℝ) := by
  have hlen : (stepPhysics maxSpeed dt).length = subStepsFor maxSpeed := by
    unfold stepPhysics
    exact List.length_replicate _ _
  refine ⟨⟨?_, ?_, ?_⟩, ?_⟩
  · intro h
    rw [hlen]
    unfold subStepsFor
    rw [if_pos h]
  · rintro ⟨h1, h2⟩
    rw [hlen]
    unfold subStepsFor
    rw [if_neg (by linarith), if_pos h1]
  · intro h
    rw [hlen]
    unfold subStepsFor
    rw [if_neg (by linarith), if_neg (by linarith)]
  · intro d hd
    rw [hlen]
    unfold stepPhysics at hd
    have := List.eq_of_mem_replicate hd
    rw [this]

/-! ## Match and round state machine (scorePoint / nextRound) -/

inductive MatchPhase where
  | title
  | countdown
  | goFlash
  | playing
  | scoring
  | betweenRounds
  | matchOver
deriving DecidableEq

inductive Team where
  | player
  | opponent
deriving DecidableEq

/-- The score-relevant slice of gameState. -/
structure ScoreState where
  playerScore : ℕ
  opponentScore : ℕ
  playerRounds : ℕ
  opponentRounds : ℕ
  round : ℕ
  matchPhase : MatchPhase
  resetTimer : ℚ
  countdownTimer : ℚ
  countdownLast : ℕ
deriving DecidableEq

/-- scorePoint (main module): increments the scorer's round score, then
awards a round when either score has reached POINTS_TO_WIN, awards the
match (phase match-over) when the winner's rounds-won reach ROUNDS_TO_WIN,
otherwise enters between-rounds; a non-round-ending point enters the brief
scoring reset phase. -/
def scorePoint (g : ScoreState) (scorer : Team) : ScoreState :=
  let g1 := match scorer with
    | Team.player => {g with playerScore := g.playerScore + 1}
    | Team.opponent => {g with opponentScore := g.opponentScore + 1}
  if CONFIG.POINTS_TO_WIN ≤ g1.playerScore ∨ CONFIG.POINTS_TO_WIN ≤ g1.opponentScore then
    let g2 := if CONFIG.POINTS_TO_WIN ≤ g1.playerScore
      then {g1 with playerRounds := g1.playerRounds + 1}
      else {g1 with opponentRounds := g1.opponentRounds + 1}
    if CONFIG.ROUNDS_TO_WIN ≤ g2.playerRounds ∨ CONFIG.ROUNDS_TO_WIN ≤ g2.opponentRounds then
      {g2 with matchPhase := MatchPhase.matchOver}
    else
      {g2 with matchPhase := MatchPhase.betweenRounds, resetTimer := 2.5}
  else
    {g1 with matchPhase := MatchPhase.scoring, resetTimer := CONFIG.RESET_DELAY_S}

/-- startCountdown: enters the countdown phase with a 3 second timer. -/
def startCountdown (g : ScoreState) : ScoreState :=
  {g with matchPhase := MatchPhase.countdown, countdownTimer := 3.0,
          countdownLast := 4}

/-- nextRound: advances the round counter, resets both round scores to zero
(rounds-won untouched; resetPositions does not touch scores either) and
starts the next countdown. -/
def nextRound (g : ScoreState) : ScoreState :=
  startCountdown {g with round := g.round + 1, playerScore := 0,
                         opponentScore := 0}

/-- Claim C3: a round ends (exactly one rounds-won counter is incremented
and play leaves the scoring-reset path for between-rounds or match-over)
exactly when a side's score reaches POINTS_TO_WIN = 7; the match ends
(phase match-over) exactly when a side's rounds-won reaches
ROUNDS_TO_WIN = 2; and on round start nextRound resets both scores to 0
while both rounds-won values persist unchanged. -/
theorem scorePoint_round_and_match (g : ScoreState) (scorer : Team)
    (h1 : g.playerRounds < CONFIG.ROUNDS_TO_WIN)
    (h2 : g.opponentRounds < CONFIG.ROUNDS_TO_WIN) :
    ((scorePoint g scorer).matchPhase = MatchPhase.betweenRounds ∨
       (scorePoint g scorer).matchPhase = MatchPhase.matchOver ↔
      CONFIG.POINTS_TO_WIN ≤ (scorePoint g scorer).playerScore ∨
        CONFIG.POINTS_TO_WIN ≤ (scorePoint g scorer).opponentScore) ∧
    ((scorePoint g scorer).playerRounds + (scorePoint g scorer).opponentRounds
        = g.playerRounds + g.opponentRounds + 1 ↔
      CONFIG.POINTS_TO_WIN ≤ (scorePoint g scorer).playerScore ∨
        CONFIG.POINTS_TO_WIN ≤ (scorePoint g scorer).opponentScore) ∧
    ((scorePoint g scorer).matchPhase = MatchPhase.matchOver ↔
      CONFIG.ROUNDS_TO_WIN ≤ (scorePoint g scorer).playerRounds ∨
        CONFIG.ROUNDS_TO_WIN ≤ (scorePoint g scorer).opponentRounds) ∧
    (nextRound g).playerScore = 0 ∧ (nextRound g).opponentScore = 0 ∧
    (nextRound g).playerRounds = g.playerRounds ∧
    (nextRound g).opponentRounds = g.opponentRounds ∧
    (nextRound g).matchPhase = MatchPhase.countdown := by
  cases scorer <;>
    simp only [scorePoint, nextRound, startCountdown] <;>
    split_ifs <;>
    simp_all <;>
    omega

/-- Witness for C3 at a concrete state: score 6-3 in round 1, no rounds
won yet, phase playing; the player scores the seventh point. -/
theorem scorePoint_round_and_match_witness :
    ((scorePoint ⟨6, 3, 0, 0, 1, MatchPhase.playing, 0, 0, 4⟩ Team.player).matchPhase
        = MatchPhase.betweenRounds ∨
       (scorePoint ⟨6, 3, 0, 0, 1, MatchPhase.playing, 0, 0, 4⟩ Team.player).matchPhase
        = MatchPhase.matchOver ↔
      CONFIG.POINTS_TO_WIN ≤
          (scorePoint ⟨6, 3, 0, 0, 1, MatchPhase.playing, 0, 0, 4⟩ Team.player).playerScore ∨
        CONFIG.POINTS_TO_WIN ≤
          (scorePoint ⟨6, 3, 0, 0, 1, MatchPhase.playing, 0, 0, 4⟩ Team.player).opponentScore) ∧
    ((scorePoint ⟨6, 3, 0, 0, 1, MatchPhase.playing, 0, 0, 4⟩ Team.player).playerRounds +
        (scorePoint ⟨6, 3, 0, 0, 1, MatchPhase.playing, 0, 0, 4⟩ Team.player).opponentRounds
        = 0 + 0 + 1 ↔
      CONFIG.POINTS_TO_WIN ≤
          (scorePoint ⟨6, 3, 0, 0, 1, MatchPhase.playing, 0, 0, 4⟩ Team.player).playerScore ∨
        CONFIG.POINTS_TO_WIN ≤
          (scorePoint ⟨6, 3, 0, 0, 1, MatchPhase.playing, 0, 0, 4⟩ Team.player).opponentScore) ∧
    ((scorePoint ⟨6, 3, 0, 0, 1, MatchPhase.playing, 0, 0, 4⟩ Team.player).matchPhase
        = MatchPhase.matchOver ↔
      CONFIG.ROUNDS_TO_WIN ≤
          (scorePoint ⟨6, 3, 0, 0, 1, MatchPhase.playing, 0, 0, 4⟩ Team.player).playerRounds ∨
        CONFIG.ROUNDS_TO_WIN ≤
          (scorePoint ⟨6, 3, 0, 0, 1, MatchPhase.playing, 0, 0, 4⟩ Team.player).opponentRounds) ∧
    (nextRound ⟨6, 3, 0, 0, 1, MatchPhase.playing, 0, 0, 4⟩).playerScore = 0 ∧
    (nextRound ⟨6, 3, 0, 0, 1, MatchPhase.playing, 0, 0, 4⟩).opponentScore = 0 ∧
    (nextRound ⟨6, 3, 0, 0, 1, MatchPhase.playing, 0, 0, 4⟩).playerRounds = 0 ∧
    (nextRound ⟨6, 3, 0, 0, 1, MatchPhase.playing, 0, 0, 4⟩).opponentRounds = 0 ∧
    (nextRound ⟨6, 3, 0, 0, 1, MatchPhase.playing, 0, 0, 4⟩).matchPhase
        = MatchPhase.countdown :=
  scorePoint_round_and_match ⟨6, 3, 0, 0, 1, MatchPhase.playing, 0, 0, 4⟩
    Team.player (by decide) (by decide)

/-! ## Shield energy (main module handleBlock) -/

/-- The slice of gameState that handleBlock reads and writes. -/
structure BlockState where
  blocking : Bool
  dashActive : Bool
  playerArmed : Bool
  onGround : Bool
  shieldEnergy : ℚ
deriving DecidableEq

/-- handleBlock (main module): a dash frame only clears blocking and
returns early; otherwise the shield is held up exactly while the block
input is held, the player is armed and grounded, and energy is above
SHIELD_MIN_ACTIVATE; while up, energy drains at SHIELD_DRAIN_RATE (with a
force drop and clamp to zero if one frame's drain reaches zero); whenever
the shield ends the frame down, energy recharges at SHIELD_RECHARGE_RATE,
capped at SHIELD_ENERGY_MAX. -/
def handleBlock (g : BlockState) (inputBlocking : Bool) (dt : ℚ) : BlockState :=
  if g.dashActive then {g with blocking := false}
  else
    let wantsBlock := inputBlocking && g.playerArmed && g.onGround
    let g1 :=
      if wantsBlock = true ∧ CONFIG.SHIELD_MIN_ACTIVATE < g.shieldEnergy then
        let e := g.shieldEnergy - CONFIG.SHIELD_DRAIN_RATE * dt
        if e ≤ 0 then {g with blocking := false, shieldEnergy := 0}
        else {g with blocking := true, shieldEnergy := e}
      else {g with blocking := false}
    if g1.blocking then g1
    else
      let e2 := min CONFIG.SHIELD_ENERGY_MAX
        (g1.shieldEnergy + CONFIG.SHIELD_RECHARGE_RATE * dt)
      {g1 with shieldEnergy := e2}

/-- Counterexample for C6, refuting the claim as stated at concrete
inputs. First: with the block input held, armed, grounded, not dashing and
energy 0.1 (above zero, below SHIELD_MIN_ACTIVATE = 0.15) the shield ends
the frame down, so it is force-dropped with energy still above zero, not
when energy reaches zero. Second: on a dash frame with energy 0.5 and
dt = 1/60 the shield is idle yet energy does not recharge at all. -/
theorem handleBlock_counterexample :
    ((handleBlock ⟨true, false, true, true, 1/10⟩ true (1/60)).blocking = false ∧
      (0 : ℚ) < 1/10 ∧ 1/10 < CONFIG.SHIELD_MIN_ACTIVATE) ∧
    ((handleBlock ⟨false, true, true, true, 1/2⟩ true (1/60)).shieldEnergy = 1/2 ∧
      (handleBlock ⟨false, true, true, true, 1/2⟩ true (1/60)).blocking = false ∧
      (1/2 : ℚ) + CONFIG.SHIELD_RECHARGE_RATE * (1/60) ≠ 1/2 ∧
      (1/2 : ℚ) + CONFIG.SHIELD_RECHARGE_RATE * (1/60) < CONFIG.SHIELD_ENERGY_MAX) := by
  refine ⟨⟨?_, by norm_num, by norm_num [CONFIG.SHIELD_MIN_ACTIVATE]⟩,
    ?_, ?_, ?_, ?_⟩ <;>
    norm_num [handleBlock, CONFIG.SHIELD_MIN_ACTIVATE, CONFIG.SHIELD_DRAIN_RATE,
      CONFIG.SHIELD_RECHARGE_RATE, CONFIG.SHIELD_ENERGY_MAX]


lemma min_energy_bounds {x : ℚ} (hx : 0 ≤ x) :
    0 ≤ min CONFIG.SHIELD_ENERGY_MAX x ∧
    min CONFIG.SHIELD_ENERGY_MAX x ≤ CONFIG.SHIELD_ENERGY_MAX :=
  ⟨le_min (by norm_num [CONFIG.SHIELD_ENERGY_MAX]) hx, min_le_left _ _⟩

/-- Claim C6 (amended): the shield ends a frame Active exactly when, on a
non-dash frame, the block input is held with the player armed and grounded,
energy exceeds SHIELD_MIN_ACTIVATE = 0.15 (so in particular an Idle to
Active transition needs energy above the threshold), and the frame's drain
leaves energy above zero — so the shield is force-dropped as soon as energy
is no longer above 0.15, with an additional clamp to 0 when a single
frame's drain reaches zero; while Active energy drains at
SHIELD_DRAIN_RATE per second; while Idle energy recharges at
SHIELD_RECHARGE_RATE per second capped at SHIELD_ENERGY_MAX, except on a
dash frame, which returns early and leaves energy unchanged; energy stays
within [0, SHIELD_ENERGY_MAX]. -/
theorem handleBlock_energy (g : BlockState) (ib : Bool) (dt : ℚ)
    (hdt : 0 ≤ dt) (h0 : 0 ≤ g.shieldEnergy)
    (h1 : g.shieldEnergy ≤ CONFIG.SHIELD_ENERGY_MAX) :
    ((handleBlock g ib dt).blocking = true ↔
      g.dashActive = false ∧ ib = true ∧ g.playerArmed = true ∧
        g.onGround = true ∧ CONFIG.SHIELD_MIN_ACTIVATE < g.shieldEnergy ∧
        0 < g.shieldEnergy - CONFIG.SHIELD_DRAIN_RATE * dt) ∧
    ((handleBlock g ib dt).blocking = true →
      (handleBlock g ib dt).shieldEnergy
        = g.shieldEnergy - CONFIG.SHIELD_DRAIN_RATE * dt) ∧
    (g.dashActive = true → handleBlock g ib dt = {g with blocking := false}) ∧
    (g.dashActive = false →
      ¬((ib && g.playerArmed && g.onGround) = true ∧
          CONFIG.SHIELD_MIN_ACTIVATE < g.shieldEnergy) →
      (handleBlock g ib dt).shieldEnergy
        = min CONFIG.SHIELD_ENERGY_MAX
            (g.shieldEnergy + CONFIG.SHIELD_RECHARGE_RATE * dt)) ∧
    (g.dashActive = false →
      (ib && g.playerArmed && g.onGround) = true ∧
        CONFIG.SHIELD_MIN_ACTIVATE < g.shieldEnergy →
      g.shieldEnergy - CONFIG.SHIELD_DRAIN_RATE * dt ≤ 0 →
      (handleBlock g ib dt).shieldEnergy
        = min CONFIG.SHIELD_ENERGY_MAX (0 + CONFIG.SHIELD_RECHARGE_RATE * dt)) ∧
    (0 ≤ (handleBlock g ib dt).shieldEnergy ∧
      (handleBlock g ib dt).shieldEnergy ≤ CONFIG.SHIELD_ENERGY_MAX) := by
  obtain ⟨b, da, pa, og, e⟩ := g
  simp only at h0 h1 ⊢
  have hdrain : (0:ℚ) ≤ CONFIG.SHIELD_DRAIN_RATE * dt := by
    have h : (0:ℚ) ≤ CONFIG.SHIELD_DRAIN_RATE := by
      norm_num [CONFIG.SHIELD_DRAIN_RATE]
    positivity
  have hrech : (0:ℚ) ≤ CONFIG.SHIELD_RECHARGE_RATE * dt := by
    have h : (0:ℚ) ≤ CONFIG.SHIELD_RECHARGE_RATE := by
      norm_num [CONFIG.SHIELD_RECHARGE_RATE]
    positivity
  cases da
  case true =>
    have hred : handleBlock ⟨b, true, pa, og, e⟩ ib dt
        = ⟨false, true, pa, og, e⟩ := by
      simp [handleBlock]
    rw [hred]
    dsimp only
    refine ⟨by simp, by simp, fun _ => rfl, by simp, by simp, h0, h1⟩
  case false =>
    by_cases hW : (ib && pa && og) = true
    · by_cases hA : CONFIG.SHIELD_MIN_ACTIVATE < e
      · by_cases hB : e - CONFIG.SHIELD_DRAIN_RATE * dt ≤ 0
        · have hred : handleBlock ⟨b, false, pa, og, e⟩ ib dt
              = ⟨false, false, pa, og,
                 min CONFIG.SHIELD_ENERGY_MAX
                   (0 + CONFIG.SHIELD_RECHARGE_RATE * dt)⟩ := by
            simp only [handleBlock]
            simp [hW, hA, hB]
          rw [hred]
          dsimp only
          have hbnd := min_energy_bounds
            (by linarith : (0:ℚ) ≤ 0 + CONFIG.SHIELD_RECHARGE_RATE * dt)
          refine ⟨?_, by simp, by simp, ?_, fun _ _ _ => rfl, hbnd.1, hbnd.2⟩
          · simp only [Bool.false_eq_true, false_iff]
            rintro ⟨-, -, -, -, -, hc⟩
            linarith
          · intro _ hn
            exact absurd ⟨hW, hA⟩ hn
        · have hred : handleBlock ⟨b, false, pa, og, e⟩ ib dt
              = ⟨true, false, pa, og, e - CONFIG.SHIELD_DRAIN_RATE * dt⟩ := by
            simp only [handleBlock]
            simp [hW, hA, hB]
          rw [hred]
          dsimp only
          have hibtrue : ib = true ∧ pa = true ∧ og = true := by
            rcases Bool.and_eq_true_iff.mp hW with ⟨h2, h3⟩
            rcases Bool.and_eq_true_iff.mp h2 with ⟨h4, h5⟩
            exact ⟨h4, h5, h3⟩
          refine ⟨?_, fun _ => rfl, by simp, ?_, ?_, by linarith, by linarith⟩
          · simp only [true_iff]
            exact ⟨by trivial, hibtrue.1, hibtrue.2.1, hibtrue.2.2, hA, by linarith⟩
          · intro _ hn
            exact absurd ⟨hW, hA⟩ hn
          · intro _ _ hc
            linarith
      · have hred : handleBlock ⟨b, false, pa, og, e⟩ ib dt
            = ⟨false, false, pa, og,
               min CONFIG.SHIELD_ENERGY_MAX
                 (e + CONFIG.SHIELD_RECHARGE_RATE * dt)⟩ := by
          simp only [handleBlock]
          simp [hW, hA]
        rw [hred]
        dsimp only
        have hbnd := min_energy_bounds
          (by linarith : (0:ℚ) ≤ e + CONFIG.SHIELD_RECHARGE_RATE * dt)
        refine ⟨?_, by simp, by simp, fun _ _ => rfl, ?_, hbnd.1, hbnd.2⟩
        · simp only [Bool.false_eq_true, false_iff]
          rintro ⟨-, -, -, -, hc, -⟩
          exact hA hc
        · intro _ hcond _
          exact absurd hcond.2 hA
    · have hred : handleBlock ⟨b, false, pa, og, e⟩ ib dt
          = ⟨false, false, pa, og,
             min CONFIG.SHIELD_ENERGY_MAX
               (e + CONFIG.SHIELD_RECHARGE_RATE * dt)⟩ := by
        simp only [handleBlock]
        simp [hW]
      rw [hred]
      dsimp only
      have hbnd := min_energy_bounds
        (by linarith : (0:ℚ) ≤ e + CONFIG.SHIELD_RECHARGE_RATE * dt)
      refine ⟨?_, by simp, by simp, fun _ _ => rfl, ?_, hbnd.1, hbnd.2⟩
      · simp only [Bool.false_eq_true, false_iff]
        rintro ⟨-, hib, hpa, hog, -, -⟩
        exact hW (by rw [hib, hpa, hog]; rfl)
      · intro _ hcond _
        exact absurd hcond.1 hW

/-- Witness for C6 at a concrete input: holding block at half energy on a
normal frame (dt = 1/60) keeps the shield up. -/
theorem handleBlock_energy_witness :
    (handleBlock ⟨false, false, true, true, 1/2⟩ true (1/60)).blocking = true :=
  ((handleBlock_energy ⟨false, false, true, true, 1/2⟩ true (1/60)
      (by norm_num) (by norm_num)
      (by norm_num [CONFIG.SHIELD_ENERGY_MAX])).1).mpr
    ⟨rfl, rfl, rfl, rfl, by norm_num [CONFIG.SHIELD_MIN_ACTIVATE],
      by norm_num [CONFIG.SHIELD_DRAIN_RATE]⟩

/-! ## Strike zones (src/strikeZone.js) -/

/-- One strike zone record as createStrikeZones builds it (the visual is
omitted). -/
structure StrikeZone where
  centerX : ℝ
  centerY : ℝ
  zWall : ℝ
  radius : ℝ
  depth : ℝ
  lastTriggerTime : ℚ
  flashTimer : ℚ

/-- The orb-state fields checkStrikeZone reads. -/
structure OrbSnap where
  position : Vec3
  velocity : Vec3
  isHeld : Bool
  recalling : Bool

/-- checkStrikeZone (src/strikeZone.js): circular detection with a speed
gate, a held/recalling gate, a 1000 ms re-trigger cooldown, a depth-range
check and a circle check; a trigger records the call time as the zone's
lastTriggerTime and starts the flash. `now` is performance.now() at the
call. Returns (triggered, updated zone). -/
noncomputable def checkStrikeZone (zone : StrikeZone) (orbState : OrbSnap)
    (now : ℚ) : Bool × StrikeZone :=
  open Classical in
  let pos := orbState.position
  let speed := norm3 orbState.velocity
  if speed < CONFIG.STRIKE_MIN_ORB_SPEED then (false, zone)
  else if orbState.isHeld || orbState.recalling then (false, zone)
  else if now - zone.lastTriggerTime < 1000 then (false, zone)
  else
    let zMin := if zone.zWall < 0 then zone.zWall else zone.zWall - zone.depth
    let zMax := if zone.zWall < 0 then zone.zWall + zone.depth else zone.zWall
    if pos.z < zMin ∨ pos.z > zMax then (false, zone)
    else
      let dx := pos.x - zone.centerX
      let dy := pos.y - zone.centerY
      let distSq := dx * dx + dy * dy
      if distSq ≤ zone.radius * zone.radius then
        (true, {zone with lastTriggerTime := now, flashTimer := 0.3})
      else (false, zone)

/-- A sequence of checkStrikeZone calls against one zone, threading the
updated zone through; each output is paired with its call time. -/
noncomputable def runStrikeZone (zone : StrikeZone) :
    List (OrbSnap × ℚ) → List (Bool × ℚ)
  | [] => []
  | c :: cs =>
    let r := checkStrikeZone zone c.1 c.2
    (r.1, c.2) :: runStrikeZone r.2 cs

lemma checkStrikeZone_true {zone : StrikeZone} {o : OrbSnap} {t : ℚ}
    (h : (checkStrikeZone zone o t).1 = true) :
    1000 ≤ t - zone.lastTriggerTime ∧
    (checkStrikeZone zone o t).2.lastTriggerTime = t := by
  simp only [checkStrikeZone] at h ⊢
  split_ifs at h ⊢ with h1 h2 h3 h4 h5 <;> simp_all

lemma checkStrikeZone_false {zone : StrikeZone} {o : OrbSnap} {t : ℚ}
    (h : (checkStrikeZone zone o t).1 = false) :
    (checkStrikeZone zone o t).2 = zone := by
  simp only [checkStrikeZone] at h ⊢
  split_ifs at h ⊢ <;> simp_all

lemma runStrikeZone_true_time (calls : List (OrbSnap × ℚ)) :
    ∀ (zone : StrikeZone) (p : Bool × ℚ), p ∈ runStrikeZone zone calls →
      p.1 = true → zone.lastTriggerTime + 1000 ≤ p.2 := by
  induction calls with
  | nil =>
    intro zone p hp
    simp [runStrikeZone] at hp
  | cons c cs ih =>
    intro zone p hp htrue
    simp only [runStrikeZone, List.mem_cons] at hp
    rcases hp with hp | hp
    · subst hp
      have := (checkStrikeZone_true htrue).1
      linarith
    · by_cases hr : (checkStrikeZone zone c.1 c.2).1 = true
      · have h1 := checkStrikeZone_true hr
        have h2 := ih (checkStrikeZone zone c.1 c.2).2 p hp htrue
        rw [h1.2] at h2
        linarith [h1.1]
      · have h1 := checkStrikeZone_false (Bool.eq_false_iff.mpr hr)
        rw [h1] at hp
        exact ih zone p hp htrue

/-- Claim C4: a triggering call needs at least 1000 ms since the zone's
last trigger and records its own time as the new last trigger; hence in
any sequence of checkStrikeZone calls against one zone, no two calls that
return true are less than 1000 ms apart, no matter how long the orb dwells
in the volume. -/
theorem checkStrikeZone_cooldown :
    (∀ (zone : StrikeZone) (o : OrbSnap) (t : ℚ),
      (checkStrikeZone zone o t).1 = true →
        1000 ≤ t - zone.lastTriggerTime ∧
        (checkStrikeZone zone o t).2.lastTriggerTime = t) ∧
    (∀ (zone : StrikeZone) (calls : List (OrbSnap × ℚ)),
      List.Pairwise (fun a b => a.1 = true → b.1 = true → 1000 ≤ b.2 - a.2)
        (runStrikeZone zone calls)) := by
  constructor
  · intro zone o t h
    exact checkStrikeZone_true h
  · intro zone calls
    induction calls generalizing zone with
    | nil => simp [runStrikeZone]
    | cons c cs ih =>
      simp only [runStrikeZone]
      refine List.Pairwise.cons ?_ (ih _)
      intro b hb hhead htrue
      by_cases hr : (checkStrikeZone zone c.1 c.2).1 = true
      · have h1 := checkStrikeZone_true hr
        have h2 := runStrikeZone_true_time cs _ b hb htrue
        rw [h1.2] at h2
        linarith
      · exact absurd hhead hr

/-! ## Orb state and the back-wall bounce handlers (main module) -/

/-- The per-orb state record (createOrb state). -/
structure OrbState where
  isHeld : Bool
  position : Vec3
  velocity : Vec3
  recalling : Bool
  stallTimer : ℚ
  returning : Bool
  returnTimer : ℚ
  throwTime : ℚ
  curveAccel : Vec3
  curveTimer : ℚ
  strikeStacks : ℕ

/-- An orb together with the physics-body fields the handlers write. -/
structure OrbFull where
  state : OrbState
  bodyPos : Vec3
  bodyVel : Vec3

/-- onPlayerOrbBounce: on a bounce whose stored normal points into the
opponent's back wall (z < -0.5) while the orb is neither returning nor
held, enters Returning: velocity is rescaled to RETURN_INITIAL_SPEED when
the current speed exceeds 0.01 (direction preserved), the flick curve is
cleared and the body is parked at (0, -50, 0) with zero velocity. -/
noncomputable def onPlayerOrbBounce (orb : OrbFull) (pos normal : Vec3) :
    OrbFull :=
  open Classical in
  if normal.z < -0.5 ∧ orb.state.returning = false ∧ orb.state.isHeld = false
  then
    let speed := norm3 orb.state.velocity
    let vel := if 0.01 < speed
      then Vec3.smul (CONFIG.RETURN_INITIAL_SPEED / speed) orb.state.velocity
      else orb.state.velocity
    { state := {orb.state with returning := true, returnTimer := 0,
                               velocity := vel, curveTimer := 0,
                               curveAccel := ⟨0, 0, 0⟩},
      bodyPos := ⟨0, -50, 0⟩,
      bodyVel := ⟨0, 0, 0⟩ }
  else orb

/-- onOpponentOrbBounce: as onPlayerOrbBounce but for the player's back
wall (stored normal z > 0.5). -/
noncomputable def onOpponentOrbBounce (orb : OrbFull) (pos normal : Vec3) :
    OrbFull :=
  open Classical in
  if 0.5 < normal.z ∧ orb.state.returning = false ∧ orb.state.isHeld = false
  then
    let speed := norm3 orb.state.velocity
    let vel := if 0.01 < speed
      then Vec3.smul (CONFIG.RETURN_INITIAL_SPEED / speed) orb.state.velocity
      else orb.state.velocity
    { state := {orb.state with returning := true, returnTimer := 0,
                               velocity := vel, curveTimer := 0,
                               curveAccel := ⟨0, 0, 0⟩},
      bodyPos := ⟨0, -50, 0⟩,
      bodyVel := ⟨0, 0, 0⟩ }
  else orb

lemma bounce_rescale_norm {v : Vec3} (h : (2:ℝ) < norm3 v) :
    norm3 (Vec3.smul (CONFIG.RETURN_INITIAL_SPEED / norm3 v) v)
      = CONFIG.RETURN_INITIAL_SPEED := by
  have hpos : 0 < norm3 v := by linarith
  have h22 : (0:ℝ) < CONFIG.RETURN_INITIAL_SPEED := by
    norm_num [CONFIG.RETURN_INITIAL_SPEED]
  rw [norm3_smul, abs_of_pos (div_pos h22 hpos)]
  exact div_mul_cancel₀ _ (ne_of_gt hpos)

/-- Claim C7: a debounced bounce event whose wall-contact normal indicates
the far back wall, delivered while the orb is in flight (not held, not
already returning) at the over-2-units/s speed syncOrbPhysics guarantees,
makes the orb Returning; on that transition its speed becomes exactly
RETURN_INITIAL_SPEED with direction preserved (a positive rescale), the
pending curve impulse is cleared to zero, and the physics body is parked
outside the playable volume (y = -50) with zero velocity. Both per-orb
handlers behave identically up to which wall counts as far. -/
theorem orbBounce_return_transition :
    (∀ (orb : OrbFull) (pos normal : Vec3),
      normal.z < -0.5 → orb.state.returning = false →
      orb.state.isHeld = false → 2 < norm3 orb.state.velocity →
      (onPlayerOrbBounce orb pos normal).state.returning = true ∧
      (onPlayerOrbBounce orb pos normal).state.returnTimer = 0 ∧
      norm3 (onPlayerOrbBounce orb pos normal).state.velocity
        = CONFIG.RETURN_INITIAL_SPEED ∧
      (∃ c : ℝ, 0 < c ∧ (onPlayerOrbBounce orb pos normal).state.velocity
        = Vec3.smul c orb.state.velocity) ∧
      (onPlayerOrbBounce orb pos normal).state.curveTimer = 0 ∧
      (onPlayerOrbBounce orb pos normal).state.curveAccel = ⟨0, 0, 0⟩ ∧
      (onPlayerOrbBounce orb pos normal).bodyPos = ⟨0, -50, 0⟩ ∧
      (onPlayerOrbBounce orb pos normal).bodyPos.y < 0 ∧
      (onPlayerOrbBounce orb pos normal).bodyVel = ⟨0, 0, 0⟩) ∧
    (∀ (orb : OrbFull) (pos normal : Vec3),
      0.5 < normal.z → orb.state.returning = false →
      orb.state.isHeld = false → 2 < norm3 orb.state.velocity →
      (onOpponentOrbBounce orb pos normal).state.returning = true ∧
      (onOpponentOrbBounce orb pos normal).state.returnTimer = 0 ∧
      norm3 (onOpponentOrbBounce orb pos normal).state.velocity
        = CONFIG.RETURN_INITIAL_SPEED ∧
      (∃ c : ℝ, 0 < c ∧ (onOpponentOrbBounce orb pos normal).state.velocity
        = Vec3.smul c orb.state.velocity) ∧
      (onOpponentOrbBounce orb pos normal).state.curveTimer = 0 ∧
      (onOpponentOrbBounce orb pos normal).state.curveAccel = ⟨0, 0, 0⟩ ∧
      (onOpponentOrbBounce orb pos normal).bodyPos = ⟨0, -50, 0⟩ ∧
      (onOpponentOrbBounce orb pos normal).bodyPos.y < 0 ∧
      (onOpponentOrbBounce orb pos normal).bodyVel = ⟨0, 0, 0⟩) := by
  constructor
  · intro orb pos normal h1 h2 h3 h4
    have hs : (0.01:ℝ) < norm3 orb.state.velocity := by linarith
    have hpos : (0:ℝ) < norm3 orb.state.velocity := by linarith
    have hc : (0:ℝ) < CONFIG.RETURN_INITIAL_SPEED / norm3 orb.state.velocity :=
      div_pos (by norm_num [CONFIG.RETURN_INITIAL_SPEED]) hpos
    simp only [onPlayerOrbBounce]
    rw [if_pos ⟨h1, h2, h3⟩, if_pos hs]
    exact ⟨rfl, rfl, bounce_rescale_norm h4, ⟨_, hc, rfl⟩, rfl, rfl, rfl,
      by norm_num, rfl⟩
  · intro orb pos normal h1 h2 h3 h4
    have hs : (0.01:ℝ) < norm3 orb.state.velocity := by linarith
    have hpos : (0:ℝ) < norm3 orb.state.velocity := by linarith
    have hc : (0:ℝ) < CONFIG.RETURN_INITIAL_SPEED / norm3 orb.state.velocity :=
      div_pos (by norm_num [CONFIG.RETURN_INITIAL_SPEED]) hpos
    simp only [onOpponentOrbBounce]
    rw [if_pos ⟨h1, h2, h3⟩, if_pos hs]
    exact ⟨rfl, rfl, bounce_rescale_norm h4, ⟨_, hc, rfl⟩, rfl, rfl, rfl,
      by norm_num, rfl⟩

/-! ## Throw logic (main module handleThrow) -/

/-- Everything handleThrow reads: gameState flags, camera angles, player
position and velocity, the flick delta and the call time. -/
structure ThrowCtx where
  playerArmed : Bool
  blocking : Bool
  dashActive : Bool
  throwTriggered : Bool
  cameraPitch : ℝ
  cameraYaw : ℝ
  playerPos : Vec3
  playerVelocity : Vec3
  flickDx : ℝ
  now : ℚ

/-- Everything handleThrow writes on an accepted throw. -/
structure ThrowOut where
  orb : OrbState
  bodyPos : Vec3
  bodyVel : Vec3
  playerArmed : Bool
  discRecalling : Bool

/-- handleThrow (main module): rejected unless the thrower is armed, not
blocking, not dashing, and the throw input triggered; otherwise releases
the orb at THROW_SPEED scaled by strike stacks along the camera forward
direction, adds half the player velocity, marks the orb in flight
(isHeld, recalling and returning all false), applies the flick curve when
the flick delta exceeds the threshold, and disarms the thrower. -/
noncomputable def handleThrow (c : ThrowCtx) (ds : OrbState) :
    Option ThrowOut :=
  open Classical in
  if c.playerArmed = false ∨ c.blocking = true then none
  else if c.throwTriggered = false then none
  else if c.dashActive = true then none
  else
    let throwSpeed := CONFIG.THROW_SPEED *
      (1 + (ds.strikeStacks : ℝ) * CONFIG.STRIKE_SPEED_SCALE)
    let dir := (applyEulerYXZ c.cameraPitch c.cameraYaw ⟨0, 0, -1⟩).normalize
    let off := Vec3.smul 1.5 dir
    let off2 : Vec3 := ⟨off.x, off.y - 0.2, off.z⟩
    let vel0 := Vec3.smul throwSpeed dir
    let vel : Vec3 := ⟨vel0.x + c.playerVelocity.x * 0.5,
                       vel0.y + c.playerVelocity.y * 0.5,
                       vel0.z + c.playerVelocity.z * 0.5⟩
    let curveDir : Vec3 := ⟨-Real.sin (c.cameraYaw + Real.pi / 2), 0,
                            -Real.cos (c.cameraYaw + Real.pi / 2)⟩
    let hasFlick := CONFIG.FLICK_THRESHOLD_PX < |c.flickDx|
    let orb2 : OrbState :=
      { ds with isHeld := false,
                position := Vec3.add c.playerPos off2,
                velocity := vel,
                throwTime := c.now,
                recalling := false,
                stallTimer := 0,
                returning := false,
                returnTimer := 0,
                curveAccel := if hasFlick
                  then Vec3.smul (Real.sign c.flickDx * CONFIG.FLICK_CURVE_ACCEL)
                    curveDir
                  else ⟨0, 0, 0⟩,
                curveTimer := if hasFlick then CONFIG.FLICK_CURVE_DURATION_S
                  else 0 }
    some { orb := orb2, bodyPos := orb2.position, bodyVel := vel,
           playerArmed := false, discRecalling := false }

/-- Claim C2 (amended): an accepted throw releases the orb with velocity
equal to the aim direction times THROW_SPEED × (1 + stacks ×
STRIKE_SPEED_SCALE) plus half the thrower's own velocity; when the thrower
is stationary the release speed is exactly THROW_SPEED × (1 + stacks ×
STRIKE_SPEED_SCALE) and the direction is exactly the aim direction at the
throw instant; the orb state transition Held to InFlight is atomic (isHeld
becomes false with recalling and returning both false) and the thrower is
disarmed. -/
theorem handleThrow_release (c : ThrowCtx) (ds : OrbState)
    (h1 : c.playerArmed = true) (h2 : c.blocking = false)
    (h3 : c.throwTriggered = true) (h4 : c.dashActive = false) :
    ∃ o : ThrowOut,
      handleThrow c ds = some o ∧
      o.orb.velocity = Vec3.add
        (Vec3.smul
          (CONFIG.THROW_SPEED *
            (1 + (ds.strikeStacks : ℝ) * CONFIG.STRIKE_SPEED_SCALE))
          (applyEulerYXZ c.cameraPitch c.cameraYaw ⟨0, 0, -1⟩).normalize)
        (Vec3.smul 0.5 c.playerVelocity) ∧
      o.orb.isHeld = false ∧ o.orb.recalling = false ∧
      o.orb.returning = false ∧ o.playerArmed = false ∧
      (c.playerVelocity = ⟨0, 0, 0⟩ →
        norm3 o.orb.velocity
          = CONFIG.THROW_SPEED *
            (1 + (ds.strikeStacks : ℝ) * CONFIG.STRIKE_SPEED_SCALE) ∧
        o.orb.velocity = Vec3.smul
          (CONFIG.THROW_SPEED *
            (1 + (ds.strikeStacks : ℝ) * CONFIG.STRIKE_SPEED_SCALE))
          (applyEulerYXZ c.cameraPitch c.cameraYaw ⟨0, 0, -1⟩).normalize) := by
  have hT : 0 ≤ CONFIG.THROW_SPEED *
      (1 + (ds.strikeStacks : ℝ) * CONFIG.STRIKE_SPEED_SCALE) := by
    have hs : (0:ℝ) ≤ (ds.strikeStacks : ℝ) := Nat.cast_nonneg _
    have h45 : CONFIG.THROW_SPEED = (45:ℝ) := rfl
    have hsc : CONFIG.STRIKE_SPEED_SCALE = (0.10:ℝ) := rfl
    rw [h45, hsc]
    nlinarith
  have hdir1 : norm3 (applyEulerYXZ c.cameraPitch c.cameraYaw
      ⟨0, 0, -1⟩).normalize = 1 := by
    apply norm3_normalize
    rw [norm3_applyEulerYXZ, norm3_zaxis]
    norm_num
  simp only [handleThrow, h1, h2, h3, h4, Bool.true_eq_false,
    Bool.false_eq_true, or_self, if_false, ite_false]
  refine ⟨_, rfl, ?_, rfl, rfl, rfl, rfl, ?_⟩
  · simp only [Vec3.add, Vec3.smul, Vec3.mk.injEq]
    refine ⟨by ring, by ring, by ring⟩
  · intro hv
    rw [hv]
    constructor
    · have hveq : (⟨(Vec3.smul
            (CONFIG.THROW_SPEED *
              (1 + (ds.strikeStacks : ℝ) * CONFIG.STRIKE_SPEED_SCALE))
            (applyEulerYXZ c.cameraPitch c.cameraYaw ⟨0, 0, -1⟩).normalize).x
              + (0:ℝ) * 0.5,
          (Vec3.smul
            (CONFIG.THROW_SPEED *
              (1 + (ds.strikeStacks : ℝ) * CONFIG.STRIKE_SPEED_SCALE))
            (applyEulerYXZ c.cameraPitch c.cameraYaw ⟨0, 0, -1⟩).normalize).y
              + (0:ℝ) * 0.5,
          (Vec3.smul
            (CONFIG.THROW_SPEED *
              (1 + (ds.strikeStacks : ℝ) * CONFIG.STRIKE_SPEED_SCALE))
            (applyEulerYXZ c.cameraPitch c.cameraYaw ⟨0, 0, -1⟩).normalize).z
              + (0:ℝ) * 0.5⟩ : Vec3)
          = Vec3.smul
            (CONFIG.THROW_SPEED *
              (1 + (ds.strikeStacks : ℝ) * CONFIG.STRIKE_SPEED_SCALE))
            (applyEulerYXZ c.cameraPitch c.cameraYaw ⟨0, 0, -1⟩).normalize := by
        simp only [Vec3.smul, Vec3.mk.injEq]
        refine ⟨by ring, by ring, by ring⟩
      rw [hveq, norm3_smul, hdir1, mul_one, abs_of_nonneg hT]
    · simp only [Vec3.smul, Vec3.mk.injEq]
      refine ⟨by ring, by ring, by ring⟩

/-- Counterexample for C2: a throw with zero strike stacks, aim straight
down the corridor, while the thrower is moving at 10 units/s toward the
opponent. The code adds half the thrower's velocity, so the orb leaves at
speed 50, not THROW_SPEED × (1 + 0 × STRIKE_SPEED_SCALE) = 45, and its
direction is not the aim direction alone. -/
theorem handleThrow_counterexample :
    ∃ o : ThrowOut,
      handleThrow ⟨true, false, false, true, 0, 0, ⟨0, 0, 28⟩, ⟨0, 0, -10⟩, 0, 0⟩
          ⟨true, ⟨0, 0, 28⟩, ⟨0, 0, 0⟩, false, 0, false, 0, 0, ⟨0, 0, 0⟩, 0, 0⟩
        = some o ∧
      norm3 o.orb.velocity = 50 ∧
      CONFIG.THROW_SPEED *
        (1 + (((⟨true, ⟨0, 0, 28⟩, ⟨0, 0, 0⟩, false, 0, false, 0, 0, ⟨0, 0, 0⟩,
          0, 0⟩ : OrbState).strikeStacks : ℝ)) * CONFIG.STRIKE_SPEED_SCALE)
        = 45 ∧
      (50 : ℝ) ≠ 45 := by
  have ha : applyEulerYXZ 0 0 ⟨0, 0, -1⟩ = ⟨0, 0, -1⟩ := by
    simp [applyEulerYXZ]
  have hz : norm3 (⟨0, 0, -1⟩ : Vec3) = 1 := by
    rw [norm3_zaxis]
    norm_num
  have hn : (⟨0, 0, -1⟩ : Vec3).normalize = ⟨0, 0, -1⟩ := by
    unfold Vec3.normalize
    rw [hz, if_neg one_ne_zero]
    simp [Vec3.smul]
  simp only [handleThrow, Bool.true_eq_false, Bool.false_eq_true, or_self,
    if_false, ite_false, ha, hn]
  refine ⟨_, rfl, ?_, ?_, by norm_num⟩
  · have hv : (⟨(Vec3.smul (CONFIG.THROW_SPEED *
          (1 + (((⟨true, ⟨0, 0, 28⟩, ⟨0, 0, 0⟩, false, 0, false, 0, 0,
            ⟨0, 0, 0⟩, 0, 0⟩ : OrbState).strikeStacks : ℝ))
            * CONFIG.STRIKE_SPEED_SCALE)) ⟨0, 0, -1⟩).x + (0:ℝ) * 0.5,
        (Vec3.smul (CONFIG.THROW_SPEED *
          (1 + (((⟨true, ⟨0, 0, 28⟩, ⟨0, 0, 0⟩, false, 0, false, 0, 0,
            ⟨0, 0, 0⟩, 0, 0⟩ : OrbState).strikeStacks : ℝ))
            * CONFIG.STRIKE_SPEED_SCALE)) ⟨0, 0, -1⟩).y + (0:ℝ) * 0.5,
        (Vec3.smul (CONFIG.THROW_SPEED *
          (1 + (((⟨true, ⟨0, 0, 28⟩, ⟨0, 0, 0⟩, false, 0, false, 0, 0,
            ⟨0, 0, 0⟩, 0, 0⟩ : OrbState).strikeStacks : ℝ))
            * CONFIG.STRIKE_SPEED_SCALE)) ⟨0, 0, -1⟩).z + (-10:ℝ) * 0.5⟩ : Vec3)
        = ⟨0, 0, -50⟩ := by
      simp only [Vec3.smul, Vec3.mk.injEq]
      norm_num [CONFIG.THROW_SPEED, CONFIG.STRIKE_SPEED_SCALE]
    rw [hv, norm3_zaxis]
    norm_num
  · norm_num [CONFIG.THROW_SPEED, CONFIG.STRIKE_SPEED_SCALE]

/-- Witness for C2 at a concrete input: a stationary, armed, non-blocking
thrower; the throw is accepted and the transition is atomic. -/
theorem handleThrow_release_witness :
    ∃ o : ThrowOut,
      handleThrow ⟨true, false, false, true, 0, 0, ⟨0, 0, 28⟩, ⟨0, 0, 0⟩, 0, 0⟩
          ⟨true, ⟨0, 0, 28⟩, ⟨0, 0, 0⟩, false, 0, false, 0, 0, ⟨0, 0, 0⟩, 0, 0⟩
        = some o ∧
      o.orb.isHeld = false ∧ o.orb.returning = false ∧
      o.orb.recalling = false ∧ o.playerArmed = false := by
  obtain ⟨o, h1, h2, h3, h4, h5, h6, h7⟩ := handleThrow_release
    ⟨true, false, false, true, 0, 0, ⟨0, 0, 28⟩, ⟨0, 0, 0⟩, 0, 0⟩
    ⟨true, ⟨0, 0, 28⟩, ⟨0, 0, 0⟩, false, 0, false, 0, 0, ⟨0, 0, 0⟩, 0, 0⟩
    rfl rfl rfl rfl
  exact ⟨o, h1, h3, h5, h4, h6⟩

/-! ## Orb physics sync and the bounce queue (src/physics.js syncOrbPhysics) -/

/-- One queued logical bounce event (setupBounceDetection). -/
structure Bounce where
  pos : Vec3
  normal : Vec3
  bodyId : ℕ

/-- Swap-with-last-and-truncate removal at index i, as the drain loop does
(`bqLen--; if (i < bqLen) bounceQueue[i] = bounceQueue[bqLen];
bounceQueue.length = bqLen`). -/
def swapPop {α : Type} (q : List α) (i : ℕ) : List α :=
  match q.getLast? with
  | none => []
  | some last => (q.set i last).dropLast

/-- The drain loop of syncOrbPhysics: walks the queue from the end (the
fuel is the running index plus one), removes every event whose bodyId is
the orb's with swap-and-pop, and records an onBounce invocation for each
removed event when `fast` (speed above 2) holds. Returns (remaining
queue, invocations in loop order). -/
def drainBounces (myId : ℕ) (fast : Bool) :
    ℕ → List Bounce → List Bounce × List Bounce
  | 0, q => (q, [])
  | i + 1, q =>
    match q[i]? with
    | none => drainBounces myId fast i q
    | some b =>
      if b.bodyId = myId then
        let r := drainBounces myId fast i (swapPop q i)
        (r.1, (if fast then [b] else []) ++ r.2)
      else drainBounces myId fast i q

/-- The orb fields syncOrbPhysics reads. -/
structure OrbPhys where
  isHeld : Bool
  bodyId : ℕ
  bodyPos : Vec3
  bodyVel : Vec3
  statePos : Vec3
  stateVel : Vec3

/-- Everything syncOrbPhysics writes. -/
structure SyncOut where
  statePos : Vec3
  stateVel : Vec3
  bodyPos : Vec3
  bodyVel : Vec3
  queue : List Bounce
  invoked : List Bounce

/-- syncOrbPhysics (src/physics.js): no-op for a held orb; otherwise
clamps the body position into the arena bounds minus a margin, copies
position and velocity into the orb state, applies air drag to the body
velocity, and drains this body's bounce events from the shared queue,
invoking onBounce only when the state speed exceeds 2. -/
noncomputable def syncOrbPhysics (orb : OrbPhys) (bounceQueue : List Bounce) :
    SyncOut :=
  open Classical in
  if orb.isHeld then
    ⟨orb.statePos, orb.stateVel, orb.bodyPos, orb.bodyVel, bounceQueue, []⟩
  else
    let margin : ℝ := 0.3
    let bp : Vec3 :=
      ⟨max (-CONFIG.ARENA_WIDTH / 2 + margin)
         (min (CONFIG.ARENA_WIDTH / 2 - margin) orb.bodyPos.x),
       max margin (min (CONFIG.ARENA_HEIGHT - margin) orb.bodyPos.y),
       max (-CONFIG.ARENA_LENGTH / 2 + margin)
         (min (CONFIG.ARENA_LENGTH / 2 - margin) orb.bodyPos.z)⟩
    let sv := orb.bodyVel
    let bv := Vec3.smul CONFIG.AIR_DRAG orb.bodyVel
    let fast : Bool := if 2 < norm3 sv then true else false
    let r := drainBounces orb.bodyId fast bounceQueue.length bounceQueue
    ⟨bp, sv, bp, bv, r.1, r.2⟩

lemma drainBounces_invoked (myId : ℕ) (fast : Bool) :
    ∀ (i : ℕ) (q : List Bounce) (b : Bounce),
      b ∈ (drainBounces myId fast i q).2 → b.bodyId = myId ∧ fast = true := by
  intro i
  induction i with
  | zero =>
    intro q b hb
    simp [drainBounces] at hb
  | succ i ih =>
    intro q b hb
    simp only [drainBounces] at hb
    cases hqi : q[i]? with
    | none =>
      rw [hqi] at hb
      exact ih q b hb
    | some b0 =>
      rw [hqi] at hb
      by_cases hmatch : b0.bodyId = myId
      · simp only [hmatch, if_true, ite_true] at hb
        rw [List.mem_append] at hb
        rcases hb with hb | hb
        · cases hfast : fast
          · rw [hfast] at hb
            simp at hb
          · rw [hfast] at hb
            simp at hb
            subst hb
            exact ⟨hmatch, rfl⟩
        · exact ih _ b hb
      · simp only [hmatch, if_false, ite_false] at hb
        exact ih q b hb

lemma drainBounces_queue (myId : ℕ) (fast : Bool) :
    ∀ (i : ℕ) (q : List Bounce),
      (∀ j, i ≤ j → ∀ b2 : Bounce, q[j]? = some b2 → b2.bodyId ≠ myId) →
      ∀ b ∈ (drainBounces myId fast i q).1, b.bodyId ≠ myId := by
  intro i
  induction i with
  | zero =>
    intro q hq b hb
    obtain ⟨j, hj⟩ := List.mem_iff_getElem?.mp hb
    exact hq j (Nat.zero_le j) b hj
  | succ i ih =>
    intro q hq b hb
    simp only [drainBounces] at hb
    cases hqi : q[i]? with
    | none =>
      rw [hqi] at hb
      refine ih q ?_ b hb
      intro j hj b2 hb2
      rcases Nat.eq_or_lt_of_le hj with rfl | hlt
      · rw [hqi] at hb2
        cases hb2
      · exact hq j hlt b2 hb2
    | some b0 =>
      rw [hqi] at hb
      by_cases hmatch : b0.bodyId = myId
      · simp only [hmatch, if_true, ite_true] at hb
        refine ih (swapPop q i) ?_ b hb
        intro j hj b2 hb2
        have hin : i < q.length := (List.getElem?_eq_some_iff.mp hqi).1
        have hne : q ≠ [] := by
          intro hcon
          subst hcon
          simp at hin
        obtain ⟨last, hlast⟩ :=
          Option.isSome_iff_exists.mp (List.getLast?_isSome.mpr hne)
        have hlastc : q[q.length - 1]? = some last := by
          rw [← List.getLast?_eq_getElem?]
          exact hlast
        have hsw : swapPop q i = (q.set i last).dropLast := by
          simp [swapPop, hlast]
        rw [hsw, List.dropLast_eq_take, List.length_set,
          List.getElem?_take] at hb2
        by_cases hjlt : j < q.length - 1
        · rw [if_pos hjlt] at hb2
          by_cases hji : i = j
          · subst hji
            rw [List.getElem?_set_self (by omega)] at hb2
            injection hb2 with hbeq
            rw [← hbeq]
            exact hq (q.length - 1) (by omega) last hlastc
          · rw [List.getElem?_set_ne hji] at hb2
            exact hq j (by omega) b2 hb2
        · rw [if_neg hjlt] at hb2
          cases hb2
      · simp only [hmatch, if_false, ite_false] at hb
        refine ih q ?_ b hb
        intro j hj b2 hb2
        rcases Nat.eq_or_lt_of_le hj with rfl | hlt
        · rw [hqi] at hb2
          injection hb2 with hbeq
          subst hbeq
          exact hmatch
        · exact hq j hlt b2 hb2

/-- Claim C9: for bounce events drained by syncOrbPhysics for an orb's own
body id, the onBounce callback is invoked only when the synced state speed
exceeds 2 units/s; when it does not, no callback is invoked at all and the
matching events are still removed from the queue — the drained queue holds
no event for this body either way, so a slow wall contact never produces
a logical bounce event. -/
theorem syncOrbPhysics_slow_bounce (orb : OrbPhys) (bounceQueue : List Bounce)
    (h : orb.isHeld = false) :
    (∀ b ∈ (syncOrbPhysics orb bounceQueue).invoked,
      b.bodyId = orb.bodyId ∧
        2 < norm3 (syncOrbPhysics orb bounceQueue).stateVel) ∧
    (¬ 2 < norm3 (syncOrbPhysics orb bounceQueue).stateVel →
      (syncOrbPhysics orb bounceQueue).invoked = []) ∧
    (∀ b ∈ (syncOrbPhysics orb bounceQueue).queue,
      b.bodyId ≠ orb.bodyId) := by
  simp only [syncOrbPhysics, h, Bool.false_eq_true, if_false, ite_false]
  by_cases hfast : 2 < norm3 orb.bodyVel
  · rw [if_pos hfast]
    refine ⟨?_, ?_, ?_⟩
    · intro b hb
      exact ⟨(drainBounces_invoked orb.bodyId true bounceQueue.length
        bounceQueue b hb).1, hfast⟩
    · intro hcon
      exact absurd hfast hcon
    · refine drainBounces_queue orb.bodyId true bounceQueue.length bounceQueue
        ?_
      intro j hj b2 hb2
      rw [List.getElem?_eq_none hj] at hb2
      cases hb2
  · rw [if_neg hfast]
    refine ⟨?_, ?_, ?_⟩
    · intro b hb
      exact absurd (drainBounces_invoked orb.bodyId false bounceQueue.length
        bounceQueue b hb).2 (by simp)
    · intro _
      rw [List.eq_nil_iff_forall_not_mem]
      intro b hb
      exact absurd (drainBounces_invoked orb.bodyId false bounceQueue.length
        bounceQueue b hb).2 (by simp)
    · refine drainBounces_queue orb.bodyId false bounceQueue.length bounceQueue
        ?_
      intro j hj b2 hb2
      rw [List.getElem?_eq_none hj] at hb2
      cases hb2

/-- Witness for C9 at a concrete input: an un-held orb moving at 1 unit/s
with one queued bounce for its own body. -/
theorem syncOrbPhysics_slow_bounce_witness :
    (∀ b ∈ (syncOrbPhysics ⟨false, 7, ⟨0, 0, 0⟩, ⟨0, 0, 1⟩, ⟨0, 0, 0⟩, ⟨0, 0, 0⟩⟩
        [⟨⟨0, 0, 0⟩, ⟨0, 0, 1⟩, 7⟩]).invoked,
      b.bodyId = (⟨false, 7, ⟨0, 0, 0⟩, ⟨0, 0, 1⟩, ⟨0, 0, 0⟩,
        ⟨0, 0, 0⟩⟩ : OrbPhys).bodyId ∧
        2 < norm3 (syncOrbPhysics ⟨false, 7, ⟨0, 0, 0⟩, ⟨0, 0, 1⟩, ⟨0, 0, 0⟩,
          ⟨0, 0, 0⟩⟩ [⟨⟨0, 0, 0⟩, ⟨0, 0, 1⟩, 7⟩]).stateVel) ∧
    (¬ 2 < norm3 (syncOrbPhysics ⟨false, 7, ⟨0, 0, 0⟩, ⟨0, 0, 1⟩, ⟨0, 0, 0⟩,
        ⟨0, 0, 0⟩⟩ [⟨⟨0, 0, 0⟩, ⟨0, 0, 1⟩, 7⟩]).stateVel →
      (syncOrbPhysics ⟨false, 7, ⟨0, 0, 0⟩, ⟨0, 0, 1⟩, ⟨0, 0, 0⟩, ⟨0, 0, 0⟩⟩
        [⟨⟨0, 0, 0⟩, ⟨0, 0, 1⟩, 7⟩]).invoked = []) ∧
    (∀ b ∈ (syncOrbPhysics ⟨false, 7, ⟨0, 0, 0⟩, ⟨0, 0, 1⟩, ⟨0, 0, 0⟩, ⟨0, 0, 0⟩⟩
        [⟨⟨0, 0, 0⟩, ⟨0, 0, 1⟩, 7⟩]).queue,
      b.bodyId ≠ (⟨false, 7, ⟨0, 0, 0⟩, ⟨0, 0, 1⟩, ⟨0, 0, 0⟩,
        ⟨0, 0, 0⟩⟩ : OrbPhys).bodyId) :=
  syncOrbPhysics_slow_bounce ⟨false, 7, ⟨0, 0, 0⟩, ⟨0, 0, 1⟩, ⟨0, 0, 0⟩, ⟨0, 0, 0⟩⟩
    [⟨⟨0, 0, 0⟩, ⟨0, 0, 1⟩, 7⟩] rfl
